import Mathlib

/-!
Verification development for the notification-service repository.

The repository contains several overlapping sketches of one per-user
notification feed engine:

* sample-scripts/scalable-notification-service.js : Postgres + Redis cache,
  cursor pagination with a limit+1 over-fetch, Redis pub/sub fan-out,
  batched retention cleanup.  This is the most complete sketch of the
  read path and is embedded below in namespace Js.
* sample-scripts/typescript-notification-service.ts : the typed variant
  (Database, resolvers, CleanupJob).  Embedded in namespace Ts.
* unnamed prisma sketch (resolvers with a four-value state enum declared in
  its GraphQL schema: UNREAD, VIEWED, DISMISSED, AUTODISMISSED).  Embedded
  in namespace Prisma.

Conventions of the shallow embedding:

* timestamps (created_at) are naturals (milliseconds since epoch); the
  sources serialize them with toISOString, which round-trips exactly at
  millisecond precision and preserves order, so cursors are modelled as
  the naturals themselves;
* the Redis cache is an association list from structured keys
  (userId, cursor-or-latest) to cached values; the sources build the string
  key "notifications:" + userId + ":" + (cursor or "latest") and invalidate
  with the pattern "notifications:" + userId + ":*", which on
  non-colliding user ids is exactly the structured behaviour modelled here;
* SQL statements are modelled row by row over a list of records: WHERE
  becomes filter, ORDER BY created_at DESC becomes a stable insertion sort,
  LIMIT becomes take, UPDATE ... WHERE id becomes a map over the rows;
* each await completes before the next statement runs, so the side effects
  of one resolver call form a plain list of effects in program order.
-/

/-- State enum of the Postgres sketches: the CHECK constraint and the
GraphQL enum both read UNREAD, READ, DISMISSED. -/
inductive NotificationState where
  | UNREAD
  | READ
  | DISMISSED
deriving DecidableEq, Repr

/-- Notification record as stored by the Postgres sketches
(typescript-notification-service.ts types.ts and the identical table schema
of scalable-notification-service.js).  The id column is SERIAL, created_at
is the insertion timestamp. -/
structure Notification where
  id : Nat
  userId : String
  message : String
  state : NotificationState
  createdAt : Nat
deriving DecidableEq, Repr

structure PageInfo where
  hasNextPage : Bool
  endCursor : Option Nat
deriving DecidableEq, Repr

structure NotificationEdge where
  node : Notification
  cursor : Nat
deriving DecidableEq, Repr

structure NotificationConnection where
  edges : List NotificationEdge
  pageInfo : PageInfo
deriving DecidableEq, Repr

/-- Error taxonomy of the sketches: throw new Error("Notification not found");
in the prisma sketch, throw new Error("Invalid notification state"); and
storeUnavailable for a statement the store itself rejects (the spec calls
this StoreUnavailable), such as a query PostgreSQL refuses to parse. -/
inductive ServiceError where
  | invalidState
  | notFound
  | storeUnavailable
deriving DecidableEq, Repr

/-- Side effects of a resolver call, in program order. -/
inductive Effect where
  | storeInsert (n : Notification)
  | cacheInvalidate (userId : String)
  | busPublish (topic : String) (n : Notification)
deriving DecidableEq, Repr

/-- Cache keys: the pair (userId, cursor-or-latest), modelling the string
key "notifications:" + userId + ":" + (cursor or "latest"). -/
abbrev CacheKey := String × Option Nat

/-- redis.get on the modelled cache. -/
def cacheGet {α : Type} : List (CacheKey × α) → CacheKey → Option α
  | [], _ => none
  | e :: rest, k => if e.1 = k then some e.2 else cacheGet rest k

/-- redis.set: the new entry shadows any previous entry for the key. -/
def cacheSet {α : Type} (k : CacheKey) (v : α) (cache : List (CacheKey × α)) :
    List (CacheKey × α) :=
  (k, v) :: cache

/-- redis.keys("notifications:" + userId + ":*") followed by redis.del:
drops every cached page of the given user. -/
def invalidateCache {α : Type} (u : String) : List (CacheKey × α) → List (CacheKey × α)
  | [] => []
  | e :: rest => if e.1.1 = u then invalidateCache u rest else e :: invalidateCache u rest

theorem cacheGet_invalidateCache {α : Type} (cache : List (CacheKey × α))
    (u : String) (co : Option Nat) :
    cacheGet (invalidateCache u cache) (u, co) = none := by
  induction cache with
  | nil => rfl
  | cons e rest ih =>
    by_cases h : e.1.1 = u
    · simp [invalidateCache, h, ih]
    · have hk : ¬ e.1 = (u, co) := by
        intro hEq
        exact h (by rw [hEq])
      simp [invalidateCache, h, cacheGet, hk, ih]

theorem cacheGet_cacheSet_self {α : Type} (cache : List (CacheKey × α))
    (k : CacheKey) (v : α) :
    cacheGet (cacheSet k v cache) k = some v := by
  simp [cacheSet, cacheGet]

/-- Row predicate of the feed query of both Postgres sketches:
WHERE user_id = $1 AND state != DISMISSED AND (created_at < cursor when a
cursor is supplied). -/
def matchesQuery (u : String) (c : Option Nat) (n : Notification) : Bool :=
  n.userId == u && !(n.state == NotificationState.DISMISSED) &&
    (match c with
     | none => true
     | some t => decide (n.createdAt < t))

/-- One step of the stable insertion sort modelling ORDER BY created_at DESC. -/
def insertByCreatedAtDesc (n : Notification) : List Notification → List Notification
  | [] => [n]
  | m :: ms =>
    if n.createdAt ≤ m.createdAt then m :: insertByCreatedAtDesc n ms
    else n :: m :: ms

/-- ORDER BY created_at DESC as a stable insertion sort. -/
def sortByCreatedAtDesc : List Notification → List Notification
  | [] => []
  | n :: ns => insertByCreatedAtDesc n (sortByCreatedAtDesc ns)

namespace Js

/-- Shared mutable state of scalable-notification-service.js: the
notifications table, the Redis cache of fully built connections, and the
SERIAL id sequence. -/
structure EngineState where
  store : List Notification
  cache : List (CacheKey × NotificationConnection)
  nextId : Nat
deriving DecidableEq, Repr

/-- The SQL feed query of scalable-notification-service.js: filter by user,
exclude DISMISSED, apply the exclusive created_at < cursor bound, order by
created_at descending, LIMIT limit + 1 (the over-fetch probe row). -/
def queryRows (store : List Notification) (u : String) (c : Option Nat)
    (lim : Nat) : List Notification :=
  (sortByCreatedAtDesc (store.filter (matchesQuery u c))).take (lim + 1)

/-- Edge and pageInfo assembly of the getNotificationsForUser resolver:
hasNextPage iff the probe row came back, edges from the first limit rows,
endCursor the cursor of the last edge. -/
def buildConnection (rows : List Notification) (lim : Nat) : NotificationConnection :=
  let edges := (rows.take lim).map (fun n => { node := n, cursor := n.createdAt })
  { edges := edges,
    pageInfo :=
      { hasNextPage := decide (rows.length > lim),
        endCursor := (edges.getLast?).map (fun e => e.cursor) } }

/-- getNotificationsForUser of scalable-notification-service.js: try the
cache under (userId, cursor-or-latest); on a miss run the store query, build
the connection, cache the fully built connection, return it. -/
def getNotificationsForUser (s : EngineState) (u : String) (c : Option Nat)
    (lim : Nat) : NotificationConnection × EngineState :=
  match cacheGet s.cache (u, c) with
  | some conn => (conn, s)
  | none =>
    let conn := buildConnection (queryRows s.store u c lim) lim
    (conn, { s with cache := cacheSet (u, c) conn s.cache })

/-- createNotification of scalable-notification-service.js: INSERT the new
UNREAD row, invalidate every cached page of the user, then publish.  Note
the published topic is the bare string NOTIFICATION_ADDED, with no user id
suffix. -/
def createNotification (s : EngineState) (u msg : String) (now : Nat) :
    Notification × EngineState × List Effect :=
  let n : Notification :=
    { id := s.nextId, userId := u, message := msg,
      state := NotificationState.UNREAD, createdAt := now }
  (n,
   { store := s.store ++ [n],
     cache := invalidateCache u s.cache,
     nextId := s.nextId + 1 },
   [Effect.storeInsert n, Effect.cacheInvalidate u,
    Effect.busPublish "NOTIFICATION_ADDED" n])

/-- Topic used by Subscription.notificationAdded of
scalable-notification-service.js: pubsub.asyncIterator of
NOTIFICATION_ADDED: + userId. -/
def subscribeTopic (u : String) : String :=
  "NOTIFICATION_ADDED:" ++ u

end Js

/-- Payloads a subscriber of the given topic receives from a list of
published effects: topic-based pub/sub delivers exactly the publishes whose
topic equals the subscribed topic. -/
def pushesTo (topic : String) (effs : List Effect) : List Notification :=
  effs.filterMap (fun e =>
    match e with
    | Effect.busPublish t n => if t = topic then some n else none
    | _ => none)

namespace Ts

/-- Shared state of typescript-notification-service.ts: the notifications
table, the Redis cache (which in this sketch stores the raw row lists, not
built connections), and the SERIAL id sequence. -/
structure EngineState where
  store : List Notification
  cache : List (CacheKey × List Notification)
  nextId : Nat
deriving DecidableEq, Repr

/-- The SQL feed query of Database.getNotificationsForUser in
typescript-notification-service.ts.  Unlike the js sketch it passes the raw
limit for LIMIT, with no + 1 probe row.  (The no-cursor branch of the
source even binds only three parameters to a query whose text references
the placeholder for LIMIT as the fourth; this embedding reads that LIMIT as
the supplied limit, the evident intent of the line.) -/
def queryRows (store : List Notification) (u : String) (c : Option Nat)
    (lim : Nat) : List Notification :=
  (sortByCreatedAtDesc (store.filter (matchesQuery u c))).take lim

/-- Database.getNotificationsForUser: cache of raw rows keyed by
(userId, cursor-or-latest); on a miss query the store and cache the rows. -/
def getNotificationsForUser (s : EngineState) (u : String) (c : Option Nat)
    (lim : Nat) : List Notification × EngineState :=
  match cacheGet s.cache (u, c) with
  | some rows => (rows, s)
  | none =>
    let rows := queryRows s.store u c lim
    (rows, { s with cache := cacheSet (u, c) rows s.cache })

/-- The Query.getNotificationsForUser resolver of
typescript-notification-service.ts: fetch the rows from the Database layer,
then derive hasNextPage as rows.length > limit and build the edges from the
first limit rows. -/
def getFeedConnection (s : EngineState) (u : String) (c : Option Nat)
    (lim : Nat) : NotificationConnection × EngineState :=
  let r := getNotificationsForUser s u c lim
  let edges := (r.1.take lim).map (fun n => { node := n, cursor := n.createdAt })
  ({ edges := edges,
     pageInfo :=
       { hasNextPage := decide (r.1.length > lim),
         endCursor := (edges.getLast?).map (fun e => e.cursor) } },
   r.2)

/-- Database.createNotification of typescript-notification-service.ts:
INSERT the new UNREAD row (awaited), then invalidate every cached page of
the user (awaited). -/
def Database.createNotification (s : EngineState) (u msg : String) (now : Nat) :
    Notification × EngineState × List Effect :=
  let n : Notification :=
    { id := s.nextId, userId := u, message := msg,
      state := NotificationState.UNREAD, createdAt := now }
  (n,
   { store := s.store ++ [n],
     cache := invalidateCache u s.cache,
     nextId := s.nextId + 1 },
   [Effect.storeInsert n, Effect.cacheInvalidate u])

/-- The Mutation.createNotification resolver: awaits
Database.createNotification, then publishes the created notification on the
per-user topic NOTIFICATION_ADDED: + userId. -/
def createNotificationResolver (s : EngineState) (u msg : String) (now : Nat) :
    Notification × EngineState × List Effect :=
  let r := Database.createNotification s u msg now
  (r.1, r.2.1, r.2.2 ++ [Effect.busPublish ("NOTIFICATION_ADDED:" ++ u) r.1])

/-- Database.updateNotification of typescript-notification-service.ts:
UPDATE notifications SET state WHERE id RETURNING *.  If no row matched it
throws Notification not found before touching the cache; otherwise it
invalidates the cached pages of the owning user (looked up from the
returned row) and returns the updated row. -/
def updateNotification (s : EngineState) (id : Nat) (st : NotificationState) :
    Except ServiceError Notification × EngineState :=
  let store1 := s.store.map (fun r => if r.id == id then { r with state := st } else r)
  match s.store.filter (fun r => r.id == id) with
  | [] => (Except.error ServiceError.notFound, { s with store := store1 })
  | r :: _ =>
    (Except.ok { r with state := st },
     { s with store := store1, cache := invalidateCache r.userId s.cache })

end Ts

namespace Prisma

/-- State enum of the prisma sketch, declared in its GraphQL schema:
UNREAD, VIEWED, DISMISSED, AUTODISMISSED. -/
inductive NotificationState where
  | UNREAD
  | VIEWED
  | DISMISSED
  | AUTODISMISSED
deriving DecidableEq, Repr

/-- Notification record of the prisma sketch (GraphQL: id Int, userId Int,
message String, state NotificationState, createdAt). -/
structure Notification where
  id : Nat
  userId : Nat
  message : String
  state : NotificationState
  createdAt : Nat
deriving DecidableEq, Repr

/-- The membership test Object.values(NotificationState).includes(state) of
the updateUserNotification resolver, combined with the conversion of the
raw state token to the enum. -/
def parseState (s : String) : Option NotificationState :=
  if s = "UNREAD" then some NotificationState.UNREAD
  else if s = "VIEWED" then some NotificationState.VIEWED
  else if s = "DISMISSED" then some NotificationState.DISMISSED
  else if s = "AUTODISMISSED" then some NotificationState.AUTODISMISSED
  else none

/-- Store accesses performed by the updateUserNotification resolver. -/
inductive StoreOp where
  | updateCall (id : Nat)
deriving DecidableEq, Repr

/-- Query.getNotificationsForUser of the prisma sketch:
prisma.notification.findMany with where userId = args.userId and state not
DISMISSED.  Note the filter excludes only DISMISSED. -/
def getNotificationsForUser (store : List Notification) (userId : Nat) :
    List Notification :=
  store.filter (fun n => n.userId == userId && !(n.state == NotificationState.DISMISSED))

/-- Mutation.updateUserNotification of the prisma sketch: first validate the
raw state token against the enum (throwing Invalid notification state with
no store access), then prisma.notification.update on the unique id, which
throws a not-found error when the id resolves to no record.  The third
component lists the store accesses performed. -/
def updateUserNotification (store : List Notification) (id : Nat) (state : String) :
    Except ServiceError Notification × List Notification × List StoreOp :=
  match parseState state with
  | none => (Except.error ServiceError.invalidState, store, [])
  | some st =>
    match store.find? (fun n => n.id == id) with
    | none => (Except.error ServiceError.notFound, store, [StoreOp.updateCall id])
    | some r =>
      (Except.ok { r with state := st },
       store.map (fun n => if n.id == id then { n with state := st } else n),
       [StoreOp.updateCall id])

end Prisma

namespace Ts

/-- CleanupJob.BATCH_SIZE of typescript-notification-service.ts. -/
def BATCH_SIZE : Nat := 1000

/-- CleanupJob.RETENTION_DAYS of typescript-notification-service.ts. -/
def RETENTION_DAYS : Nat := 7

/-- The cutoff computed by Database.cleanupOldNotifications: now minus the
retention window (a day is 86400000 milliseconds). -/
def cleanupCutoff (now : Nat) : Nat :=
  now - RETENTION_DAYS * 86400000

/-- Row predicate of the delete: created_at < cutoff. -/
def isOld (cutoff : Nat) (n : Notification) : Bool :=
  decide (n.createdAt < cutoff)

/-- The row set one batch statement, DELETE FROM notifications WHERE
created_at < cutoff LIMIT b, was MEANT to remove: up to b matching rows
(here, the first b in row order), returned with the deleted row count.
PostgreSQL in fact rejects the statement before execution — DELETE has no
LIMIT clause — see pgAcceptsDeleteLimit and cleanupOldNotifications below;
this definition captures only the intended per-batch semantics. -/
def deleteOldBatch (cutoff : Nat) : List Notification → Nat → List Notification × Nat
  | [], _ => ([], 0)
  | n :: ns, 0 => (n :: ns, 0)
  | n :: ns, b + 1 =>
    if isOld cutoff n then
      let p := deleteOldBatch cutoff ns b
      (p.1, p.2 + 1)
    else
      let p := deleteOldBatch cutoff ns (b + 1)
      (n :: p.1, p.2)

theorem deleteOldBatch_length (cutoff : Nat) :
    ∀ (s : List Notification) (b : Nat),
      (deleteOldBatch cutoff s b).1.length + (deleteOldBatch cutoff s b).2 = s.length := by
  intro s
  induction s with
  | nil => intro b; simp [deleteOldBatch]
  | cons n ns ih =>
    intro b
    match b with
    | 0 => simp [deleteOldBatch]
    | b + 1 =>
      by_cases h : isOld cutoff n
      · have := ih b
        simp [deleteOldBatch, h]
        omega
      · have := ih (b + 1)
        simp [deleteOldBatch, h]
        omega

theorem deleteOldBatch_deleted (cutoff : Nat) :
    ∀ (s : List Notification) (b : Nat),
      (deleteOldBatch cutoff s b).2 = min b (s.countP (isOld cutoff)) := by
  intro s
  induction s with
  | nil => intro b; simp [deleteOldBatch]
  | cons n ns ih =>
    intro b
    match b with
    | 0 => simp [deleteOldBatch]
    | b + 1 =>
      by_cases h : isOld cutoff n
      · simp [deleteOldBatch, h, List.countP_cons, ih b, Nat.succ_min_succ]
      · simp [deleteOldBatch, h, List.countP_cons, ih (b + 1)]

theorem deleteOldBatch_keeps (cutoff : Nat) :
    ∀ (s : List Notification) (b : Nat),
      (deleteOldBatch cutoff s b).1.filter (fun n => !(isOld cutoff n)) =
        s.filter (fun n => !(isOld cutoff n)) := by
  intro s
  induction s with
  | nil => intro b; simp [deleteOldBatch]
  | cons n ns ih =>
    intro b
    match b with
    | 0 => simp [deleteOldBatch]
    | b + 1 =>
      by_cases h : isOld cutoff n
      · simp [deleteOldBatch, h, List.filter_cons, ih b]
      · simp [deleteOldBatch, h, List.filter_cons, ih (b + 1)]

theorem deleteOldBatch_countOld (cutoff : Nat) :
    ∀ (s : List Notification) (b : Nat),
      (deleteOldBatch cutoff s b).1.countP (isOld cutoff) =
        s.countP (isOld cutoff) - (deleteOldBatch cutoff s b).2 := by
  intro s
  induction s with
  | nil => intro b; simp [deleteOldBatch]
  | cons n ns ih =>
    intro b
    match b with
    | 0 => simp [deleteOldBatch]
    | b + 1 =>
      by_cases h : isOld cutoff n
      · simp [deleteOldBatch, h, List.countP_cons, ih b]
      · simp [deleteOldBatch, h, List.countP_cons, ih (b + 1)]

/-- The INTENDED semantics of the CleanupJob.cleanup do-while loop of
typescript-notification-service.ts, under the counterfactual that its batch
delete statement executed (it does not; see cleanupJobRun for the loop as
it actually runs): issue delete batches of BATCH_SIZE rows until a batch
deletes fewer than BATCH_SIZE, with a 100 ms setTimeout between consecutive
full batches.  Returns the remaining store and the number of batches issued
(the loop body runs once even on an empty store; the number of inter-batch
delays is the batch count minus one). -/
def cleanup (cutoff : Nat) (store : List Notification) : List Notification × Nat :=
  if h : (deleteOldBatch cutoff store BATCH_SIZE).2 = BATCH_SIZE then
    ((cleanup cutoff (deleteOldBatch cutoff store BATCH_SIZE).1).1,
     (cleanup cutoff (deleteOldBatch cutoff store BATCH_SIZE).1).2 + 1)
  else
    ((deleteOldBatch cutoff store BATCH_SIZE).1, 1)
termination_by store.length
decreasing_by
  have hl := deleteOldBatch_length cutoff store BATCH_SIZE
  have hbs : BATCH_SIZE = 1000 := rfl
  omega

theorem cleanup_spec_aux (cutoff : Nat) :
    ∀ (k : Nat) (store : List Notification), store.length ≤ k →
      (cleanup cutoff store).1 = store.filter (fun n => !(isOld cutoff n)) ∧
      (cleanup cutoff store).2 = store.countP (isOld cutoff) / BATCH_SIZE + 1 := by
  intro k
  induction k with
  | zero =>
    intro store hlen
    have hstore : store = [] := List.eq_nil_of_length_eq_zero (Nat.le_zero.mp hlen)
    subst hstore
    rw [cleanup]
    simp [deleteOldBatch, BATCH_SIZE]
  | succ k ih =>
    intro store hlen
    rw [cleanup]
    have hlength := deleteOldBatch_length cutoff store BATCH_SIZE
    have hdeleted := deleteOldBatch_deleted cutoff store BATCH_SIZE
    have hkeeps := deleteOldBatch_keeps cutoff store BATCH_SIZE
    have hcountOld := deleteOldBatch_countOld cutoff store BATCH_SIZE
    by_cases h : (deleteOldBatch cutoff store BATCH_SIZE).2 = BATCH_SIZE
    · simp only [h, dif_pos]
      have hlen1 : (deleteOldBatch cutoff store BATCH_SIZE).1.length ≤ k := by
        have hbs : BATCH_SIZE = 1000 := rfl
        omega
      have hrec := ih (deleteOldBatch cutoff store BATCH_SIZE).1 hlen1
      have hge : BATCH_SIZE ≤ store.countP (isOld cutoff) := by
        rw [h] at hdeleted
        omega
      constructor
      · rw [hrec.1, hkeeps]
      · rw [hrec.2, hcountOld, h]
        have hdiv := Nat.div_eq_sub_div (by simp [BATCH_SIZE] : 0 < BATCH_SIZE) hge
        omega
    · simp only [h, dif_neg, not_false_iff]
      have hlt : store.countP (isOld cutoff) < BATCH_SIZE := by
        by_contra hge
        push_neg at hge
        rw [hdeleted, Nat.min_eq_left hge] at h
        exact h rfl
      have hzero : (deleteOldBatch cutoff store BATCH_SIZE).1.countP (isOld cutoff) = 0 := by
        rw [hcountOld, hdeleted, Nat.min_eq_right (Nat.le_of_lt hlt)]
        omega
      constructor
      · have hall : ∀ n ∈ (deleteOldBatch cutoff store BATCH_SIZE).1,
            (!(isOld cutoff n)) = true := by
          intro n hn
          have := List.countP_eq_zero.mp hzero n hn
          simpa using this
        calc (deleteOldBatch cutoff store BATCH_SIZE).1
            = (deleteOldBatch cutoff store BATCH_SIZE).1.filter
                (fun n => !(isOld cutoff n)) := (List.filter_eq_self.mpr hall).symm
          _ = store.filter (fun n => !(isOld cutoff n)) := hkeeps
      · rw [Nat.div_eq_of_lt hlt]

/-- Whether PostgreSQL accepts a DELETE statement carrying a LIMIT clause.
It does not: DELETE has no LIMIT clause in PostgreSQL, and such a statement
is rejected with a syntax error before touching any row. -/
def pgAcceptsDeleteLimit : Bool := false

/-- Database.cleanupOldNotifications of typescript-notification-service.ts:
one batch statement DELETE FROM notifications WHERE created_at < cutoff
LIMIT batch (the js sketch issues the identical statement).  Because
PostgreSQL rejects LIMIT on DELETE (pgAcceptsDeleteLimit is false), the
call always fails with a store error and the store is unchanged; the
guarded branch records what the statement was meant to do (deleteOldBatch),
and is unreachable. -/
def cleanupOldNotifications (store : List Notification) (cutoff batch : Nat) :
    Except ServiceError Nat × List Notification :=
  if pgAcceptsDeleteLimit then
    (Except.ok (deleteOldBatch cutoff store batch).2,
     (deleteOldBatch cutoff store batch).1)
  else
    (Except.error ServiceError.storeUnavailable, store)

/-- CleanupJob.cleanup of typescript-notification-service.ts as it actually
runs: the do-while loop awaits one cleanupOldNotifications batch per
iteration and contains no catch, so a rejected await aborts the whole run
at once.  Returns the outcome (batch count on success, the error of the
failed batch otherwise) together with the resulting store.  Since the batch
statement is invalid PostgreSQL, the very first await rejects and the
recursive case is unreachable. -/
def cleanupJobRun (cutoff : Nat) (store : List Notification) :
    Except ServiceError Nat × List Notification :=
  match _h : cleanupOldNotifications store cutoff BATCH_SIZE with
  | (Except.error e, store1) => (Except.error e, store1)
  | (Except.ok k, store1) =>
    if k = BATCH_SIZE then
      match cleanupJobRun cutoff store1 with
      | (Except.error e, store2) => (Except.error e, store2)
      | (Except.ok batches, store2) => (Except.ok (batches + 1), store2)
    else
      (Except.ok 1, store1)
termination_by store.length
decreasing_by
  simp [cleanupOldNotifications, pgAcceptsDeleteLimit] at _h

theorem cleanupJobRun_always_fails (cutoff : Nat) (store : List Notification) :
    cleanupJobRun cutoff store =
      (Except.error ServiceError.storeUnavailable, store) := by
  rw [cleanupJobRun]
  split
  · next e store1 h =>
      simp [cleanupOldNotifications, pgAcceptsDeleteLimit] at h
      obtain ⟨h1, h2⟩ := h
      subst h1
      subst h2
      rfl
  · next k store1 h =>
      simp [cleanupOldNotifications, pgAcceptsDeleteLimit] at h

end Ts

/-- A user with 25 visible notifications, created at times 0..24.  Used to
evaluate the pagination scenario of the spec on the embedded sketches. -/
def sampleStore25 : List Notification :=
  (List.range 25).map (fun i =>
    { id := i + 1, userId := "u", message := "m",
      state := NotificationState.UNREAD, createdAt := i })

/-- Claim C1: creating a notification between two page fetches does not make
the second fetch skip or duplicate anything: since the cursor is an
exclusive upper bound on created_at and created_at is monotone, the page
fetched with a previously returned cursor after the concurrent insert is
exactly the connection built from the ORIGINAL visible rows strictly older
than the cursor (the create also invalidates every cached page of the user,
so the fetch cannot be served from a stale cache entry). -/
theorem spec_c1_cursor_stable_under_insert (s : Js.EngineState)
    (u msg : String) (now c lim : Nat)
    (hmono : ∀ n ∈ s.store, n.createdAt ≤ now)
    (hc : ∃ m ∈ s.store, m.createdAt = c) :
    (Js.getNotificationsForUser (Js.createNotification s u msg now).2.1
        u (some c) lim).1 =
      Js.buildConnection (Js.queryRows s.store u (some c) lim) lim := by
  obtain ⟨m, hm, hmc⟩ := hc
  have hle : c ≤ now := hmc ▸ hmono m hm
  have hnotlt : ¬ (now < c) := Nat.not_lt.mpr hle
  have hfilter : matchesQuery u (some c)
      { id := s.nextId, userId := u, message := msg,
        state := NotificationState.UNREAD, createdAt := now } = false := by
    simp [matchesQuery, hnotlt]
  simp [Js.createNotification, Js.getNotificationsForUser,
    cacheGet_invalidateCache, Js.queryRows, List.filter_append, hfilter]

/-- Witness for C1 at a concrete state: two visible notifications created
at times 1 and 2, cursor 1 (a previously returned endCursor value), a
concurrent create at time 5. -/
theorem spec_c1_witness :
    (∀ n ∈ ([{ id := 1, userId := "u", message := "a",
               state := NotificationState.UNREAD, createdAt := 1 },
             { id := 2, userId := "u", message := "b",
               state := NotificationState.UNREAD, createdAt := 2 }] :
            List Notification), n.createdAt ≤ 5) ∧
    (∃ m ∈ ([{ id := 1, userId := "u", message := "a",
               state := NotificationState.UNREAD, createdAt := 1 },
             { id := 2, userId := "u", message := "b",
               state := NotificationState.UNREAD, createdAt := 2 }] :
            List Notification), m.createdAt = 1) ∧
    (Js.getNotificationsForUser
        (Js.createNotification
          { store := [{ id := 1, userId := "u", message := "a",
                        state := NotificationState.UNREAD, createdAt := 1 },
                      { id := 2, userId := "u", message := "b",
                        state := NotificationState.UNREAD, createdAt := 2 }],
            cache := [], nextId := 3 } "u" "m" 5).2.1
        "u" (some 1) 1).1 =
      Js.buildConnection
        (Js.queryRows [{ id := 1, userId := "u", message := "a",
                         state := NotificationState.UNREAD, createdAt := 1 },
                       { id := 2, userId := "u", message := "b",
                         state := NotificationState.UNREAD, createdAt := 2 }]
          "u" (some 1) 1) 1 :=
  ⟨by decide, by decide,
   spec_c1_cursor_stable_under_insert
     { store := [{ id := 1, userId := "u", message := "a",
                   state := NotificationState.UNREAD, createdAt := 1 },
                 { id := 2, userId := "u", message := "b",
                   state := NotificationState.UNREAD, createdAt := 2 }],
       cache := [], nextId := 3 } "u" "m" 5 1 1 (by decide) (by decide)⟩

/-- Claim C2, evaluated on the cited typescript sketch: with 25 visible
notifications and an empty cache, getFeed(limit = 20) returns 20 edges but
hasNextPage = false, because Database.getNotificationsForUser passes the
raw limit to LIMIT (no + 1 probe row), so the resolver comparison
rows.length > limit can never be true.  The claim (and the sibling js
sketch, see js_pagination_scenario_25) says hasNextPage must be true here. -/
theorem spec_c2_ts_first_page_has_next_false :
    ((Ts.getFeedConnection { store := sampleStore25, cache := [], nextId := 26 }
        "u" none 20).1.edges.length = 20) ∧
    ((Ts.getFeedConnection { store := sampleStore25, cache := [], nextId := 26 }
        "u" none 20).1.pageInfo.hasNextPage = false) := by
  decide

/-- The same 25-notification scenario on the js sketch, which implements
the limit + 1 over-fetch the spec describes: first page has 20 edges with
hasNextPage true and endCursor 5, the page fetched with that cursor has the
remaining 5 edges and hasNextPage false. -/
theorem js_pagination_scenario_25 :
    ((Js.getNotificationsForUser { store := sampleStore25, cache := [], nextId := 26 }
        "u" none 20).1.edges.length = 20) ∧
    ((Js.getNotificationsForUser { store := sampleStore25, cache := [], nextId := 26 }
        "u" none 20).1.pageInfo.hasNextPage = true) ∧
    ((Js.getNotificationsForUser { store := sampleStore25, cache := [], nextId := 26 }
        "u" none 20).1.pageInfo.endCursor = some 5) ∧
    ((Js.getNotificationsForUser
        (Js.getNotificationsForUser { store := sampleStore25, cache := [], nextId := 26 }
          "u" none 20).2 "u" (some 5) 20).1.edges.length = 5) ∧
    ((Js.getNotificationsForUser
        (Js.getNotificationsForUser { store := sampleStore25, cache := [], nextId := 26 }
          "u" none 20).2 "u" (some 5) 20).1.pageInfo.hasNextPage = false) := by
  decide

/-- Claim C3, counterexample: in the prisma sketch a DISMISSED notification
is moved back to VIEWED by updateUserNotification — the update is not
rejected and the stored record changes state, so DISMISSED is not
terminal. -/
theorem spec_c3_counterexample :
    (Prisma.updateUserNotification
        [{ id := 1, userId := 1, message := "m",
           state := Prisma.NotificationState.DISMISSED, createdAt := 0 }]
        1 "VIEWED").1 =
      Except.ok { id := 1, userId := 1, message := "m",
                  state := Prisma.NotificationState.VIEWED, createdAt := 0 } ∧
    (Prisma.updateUserNotification
        [{ id := 1, userId := 1, message := "m",
           state := Prisma.NotificationState.DISMISSED, createdAt := 0 }]
        1 "VIEWED").2.1 =
      [{ id := 1, userId := 1, message := "m",
         state := Prisma.NotificationState.VIEWED, createdAt := 0 }] :=
  ⟨rfl, rfl⟩

/-- Claim C3 as amended: updateUserNotification validates only that the
requested state is in the enum and that the id resolves to a record; it
enforces no transition discipline, so any in-enum state is accepted from
any current state — in particular DISMISSED and AUTODISMISSED are not
terminal. -/
theorem spec_c3_update_allows_any_valid_state (store : List Prisma.Notification)
    (id : Nat) (x : String) (st : Prisma.NotificationState) (r : Prisma.Notification)
    (hx : Prisma.parseState x = some st)
    (hr : store.find? (fun n => n.id == id) = some r) :
    (Prisma.updateUserNotification store id x).1 = Except.ok { r with state := st } ∧
    (Prisma.updateUserNotification store id x).2.1 =
      store.map (fun n => if n.id == id then { n with state := st } else n) := by
  unfold Prisma.updateUserNotification
  rw [hx, hr]
  exact ⟨rfl, rfl⟩

/-- Witness for the amended C3: the concrete DISMISSED record of the
counterexample is updated to VIEWED. -/
theorem spec_c3_witness :
    Prisma.parseState "VIEWED" = some Prisma.NotificationState.VIEWED ∧
    ([{ id := 1, userId := 1, message := "m",
        state := Prisma.NotificationState.DISMISSED, createdAt := 0 }] :
      List Prisma.Notification).find? (fun n => n.id == 1) =
      some { id := 1, userId := 1, message := "m",
             state := Prisma.NotificationState.DISMISSED, createdAt := 0 } ∧
    ((Prisma.updateUserNotification
        [{ id := 1, userId := 1, message := "m",
           state := Prisma.NotificationState.DISMISSED, createdAt := 0 }]
        1 "VIEWED").1 =
      Except.ok { id := 1, userId := 1, message := "m",
                  state := Prisma.NotificationState.VIEWED, createdAt := 0 } ∧
     (Prisma.updateUserNotification
        [{ id := 1, userId := 1, message := "m",
           state := Prisma.NotificationState.DISMISSED, createdAt := 0 }]
        1 "VIEWED").2.1 =
      [{ id := 1, userId := 1, message := "m",
         state := Prisma.NotificationState.VIEWED, createdAt := 0 }].map
        (fun n => if n.id == 1 then { n with state := Prisma.NotificationState.VIEWED }
                  else n)) :=
  ⟨by decide, rfl,
   spec_c3_update_allows_any_valid_state
     [{ id := 1, userId := 1, message := "m",
        state := Prisma.NotificationState.DISMISSED, createdAt := 0 }]
     1 "VIEWED" Prisma.NotificationState.VIEWED
     { id := 1, userId := 1, message := "m",
       state := Prisma.NotificationState.DISMISSED, createdAt := 0 }
     (by decide) rfl⟩

/-- Claim C4, counterexample: in the prisma sketch (whose schema declares
the AUTODISMISSED state) the feed query filters out only DISMISSED, so a
notification in state AUTODISMISSED IS returned by getNotificationsForUser,
contrary to the claim that it is excluded like DISMISSED. -/
theorem spec_c4_counterexample :
    Prisma.getNotificationsForUser
        [{ id := 1, userId := 1, message := "m",
           state := Prisma.NotificationState.AUTODISMISSED, createdAt := 0 }] 1 =
      [{ id := 1, userId := 1, message := "m",
         state := Prisma.NotificationState.AUTODISMISSED, createdAt := 0 }] ∧
    ({ id := 1, userId := 1, message := "m",
       state := Prisma.NotificationState.AUTODISMISSED, createdAt := 0 } :
      Prisma.Notification).state = Prisma.NotificationState.AUTODISMISSED := by
  decide

/-- Claim C4 as amended: every notification in the feed belongs to the
requested user and satisfies state different from DISMISSED — and only
DISMISSED; AUTODISMISSED rows are not excluded. -/
theorem spec_c4_feed_excludes_dismissed_only (store : List Prisma.Notification)
    (u : Nat) (n : Prisma.Notification)
    (hn : n ∈ Prisma.getNotificationsForUser store u) :
    n.userId = u ∧ n.state ≠ Prisma.NotificationState.DISMISSED := by
  unfold Prisma.getNotificationsForUser at hn
  have hpred := (List.mem_filter.mp hn).2
  simpa using hpred

/-- Witness for the amended C4: the AUTODISMISSED record of the
counterexample is a member of the feed and satisfies the amended
visibility predicate. -/
theorem spec_c4_witness :
    (({ id := 1, userId := 1, message := "m",
        state := Prisma.NotificationState.AUTODISMISSED, createdAt := 0 } :
       Prisma.Notification) ∈
      Prisma.getNotificationsForUser
        [{ id := 1, userId := 1, message := "m",
           state := Prisma.NotificationState.AUTODISMISSED, createdAt := 0 }] 1) ∧
    (({ id := 1, userId := 1, message := "m",
        state := Prisma.NotificationState.AUTODISMISSED, createdAt := 0 } :
       Prisma.Notification).userId = 1 ∧
     ({ id := 1, userId := 1, message := "m",
        state := Prisma.NotificationState.AUTODISMISSED, createdAt := 0 } :
       Prisma.Notification).state ≠ Prisma.NotificationState.DISMISSED) :=
  ⟨by decide,
   spec_c4_feed_excludes_dismissed_only
     [{ id := 1, userId := 1, message := "m",
        state := Prisma.NotificationState.AUTODISMISSED, createdAt := 0 }] 1
     { id := 1, userId := 1, message := "m",
       state := Prisma.NotificationState.AUTODISMISSED, createdAt := 0 }
     (by decide)⟩

/-- Claim C5: updateUserNotification validates the requested state against
the closed enum before any store access: for a state token outside the enum
it fails with the invalid-state error, performs no store operation, and
leaves the store unchanged. -/
theorem spec_c5_invalid_state_checked_first (store : List Prisma.Notification)
    (id : Nat) (x : String) (hx : Prisma.parseState x = none) :
    Prisma.updateUserNotification store id x =
      (Except.error ServiceError.invalidState, store, []) := by
  unfold Prisma.updateUserNotification
  rw [hx]

/-- Witness for C5: the token READ (a state of the OTHER sketches, outside
this enum of UNREAD, VIEWED, DISMISSED, AUTODISMISSED) is rejected and the
store is untouched. -/
theorem spec_c5_witness :
    Prisma.parseState "READ" = none ∧
    Prisma.updateUserNotification
        [{ id := 1, userId := 1, message := "m",
           state := Prisma.NotificationState.UNREAD, createdAt := 0 }] 1 "READ" =
      (Except.error ServiceError.invalidState,
       [{ id := 1, userId := 1, message := "m",
          state := Prisma.NotificationState.UNREAD, createdAt := 0 }], []) :=
  ⟨by decide,
   spec_c5_invalid_state_checked_first
     [{ id := 1, userId := 1, message := "m",
        state := Prisma.NotificationState.UNREAD, createdAt := 0 }]
     1 "READ" (by decide)⟩

/-- Claim C6: a successful create performs its effects in the fixed order
store-insert of an UNREAD record, invalidation of every cached page of the
user, then the bus publish on the per-user topic; the publish is the last
element of the effect trace, after the invalidation. -/
theorem spec_c6_create_effect_order (s : Ts.EngineState) (u msg : String) (now : Nat) :
    (Ts.createNotificationResolver s u msg now).2.2 =
      [Effect.storeInsert (Ts.createNotificationResolver s u msg now).1,
       Effect.cacheInvalidate u,
       Effect.busPublish ("NOTIFICATION_ADDED:" ++ u)
         (Ts.createNotificationResolver s u msg now).1] ∧
    (Ts.createNotificationResolver s u msg now).1.state = NotificationState.UNREAD ∧
    (Ts.createNotificationResolver s u msg now).2.1.store =
      s.store ++ [(Ts.createNotificationResolver s u msg now).1] ∧
    ∀ co : Option Nat,
      cacheGet (Ts.createNotificationResolver s u msg now).2.1.cache (u, co) = none := by
  refine ⟨rfl, rfl, rfl, fun co => ?_⟩
  simp [Ts.createNotificationResolver, Ts.Database.createNotification,
    cacheGet_invalidateCache]

/-- Claim C7, evaluated on the cited js sketch: createNotification publishes
on the bare topic NOTIFICATION_ADDED while Subscription.notificationAdded
subscribes to NOTIFICATION_ADDED: + userId, so a subscriber of the creating
user connected before the create receives no push at all (the claim says
exactly one). -/
theorem spec_c7_js_subscriber_receives_nothing :
    pushesTo (Js.subscribeTopic "user123")
        (Js.createNotification { store := [], cache := [], nextId := 1 }
          "user123" "hello" 0).2.2 = [] ∧
    pushesTo "NOTIFICATION_ADDED"
        (Js.createNotification { store := [], cache := [], nextId := 1 }
          "user123" "hello" 0).2.2 =
      [{ id := 1, userId := "user123", message := "hello",
         state := NotificationState.UNREAD, createdAt := 0 }] ∧
    Js.subscribeTopic "user123" ≠ "NOTIFICATION_ADDED" := by
  decide

/-- Claim C8, evaluated on the cited code: the batch statement of
Database.cleanupOldNotifications is DELETE FROM notifications WHERE
created_at < $1 LIMIT $2, which PostgreSQL rejects as a syntax error
(DELETE has no LIMIT clause), so a CleanupJob.cleanup run over a store
holding a row older than the 7-day window (createdAt 0) and a row newer
than it (createdAt 10), with now = 604800005 so the cutoff is 5, fails
with the store error at its very first batch and deletes nothing: both
rows survive, including the old one.  The claim says the run terminates
having removed exactly the old row. -/
theorem spec_c8_cleanup_run_fails_and_deletes_nothing :
    (Ts.cleanupJobRun (Ts.cleanupCutoff 604800005)
        [{ id := 1, userId := "u", message := "m",
           state := NotificationState.UNREAD, createdAt := 0 },
         { id := 2, userId := "u", message := "m",
           state := NotificationState.UNREAD, createdAt := 10 }]).1 =
      Except.error ServiceError.storeUnavailable ∧
    (Ts.cleanupJobRun (Ts.cleanupCutoff 604800005)
        [{ id := 1, userId := "u", message := "m",
           state := NotificationState.UNREAD, createdAt := 0 },
         { id := 2, userId := "u", message := "m",
           state := NotificationState.UNREAD, createdAt := 10 }]).2 =
      [{ id := 1, userId := "u", message := "m",
         state := NotificationState.UNREAD, createdAt := 0 },
       { id := 2, userId := "u", message := "m",
         state := NotificationState.UNREAD, createdAt := 10 }] ∧
    Ts.isOld (Ts.cleanupCutoff 604800005)
      { id := 1, userId := "u", message := "m",
        state := NotificationState.UNREAD, createdAt := 0 } = true :=
  ⟨by rw [Ts.cleanupJobRun_always_fails],
   by rw [Ts.cleanupJobRun_always_fails],
   by decide⟩

/-- The batch loop logic itself, in isolation from the broken statement,
implements the retention sweep the spec describes: under the counterfactual
that the delete batch executed as intended, one run of the do-while loop
terminates, removes exactly the rows with created_at older than the cutoff
leaving every newer row unchanged in order, and issues exactly
countOld / 1000 + 1 bounded batches, i.e. loops until a batch deletes fewer
rows than the batch size.  This supports reading the spec as the intent and
the SQL of the source as the slip. -/
theorem cleanup_loop_intended_semantics (now : Nat) (store : List Notification) :
    (Ts.cleanup (Ts.cleanupCutoff now) store).1 =
      store.filter (fun n => !(Ts.isOld (Ts.cleanupCutoff now) n)) ∧
    (Ts.cleanup (Ts.cleanupCutoff now) store).2 =
      store.countP (Ts.isOld (Ts.cleanupCutoff now)) / Ts.BATCH_SIZE + 1 :=
  Ts.cleanup_spec_aux (Ts.cleanupCutoff now) store.length store le_rfl

/-- Claim C9: getFeed is idempotent on the js sketch: the first call stores
the fully built connection in the cache under the key
(userId, cursor-or-latest), and a second call with the same arguments and
no intervening write returns the identical connection from that entry,
leaving the state unchanged. -/
theorem spec_c9_getfeed_idempotent (s : Js.EngineState) (u : String)
    (c : Option Nat) (lim : Nat) :
    cacheGet ((Js.getNotificationsForUser s u c lim).2).cache (u, c) =
      some (Js.getNotificationsForUser s u c lim).1 ∧
    (Js.getNotificationsForUser (Js.getNotificationsForUser s u c lim).2 u c lim).1 =
      (Js.getNotificationsForUser s u c lim).1 ∧
    (Js.getNotificationsForUser (Js.getNotificationsForUser s u c lim).2 u c lim).2 =
      (Js.getNotificationsForUser s u c lim).2 := by
  cases h : cacheGet s.cache (u, c) with
  | some conn => simp [Js.getNotificationsForUser, h]
  | none => simp [Js.getNotificationsForUser, h, cacheGet_cacheSet_self]

/-- Claim C10: a successful updateNotification rewrites exactly the state
field of the records whose id matches (keeping id, userId, message and
createdAt), and every other record of the store is unchanged and still
present. -/
theorem spec_c10_update_frame (s : Ts.EngineState) (id : Nat)
    (st : NotificationState) (r : Notification)
    (hr : r ∈ s.store) (hid : r.id = id) :
    (Ts.updateNotification s id st).2.store =
      s.store.map (fun q => if q.id == id then { q with state := st } else q) ∧
    (∀ q ∈ s.store, q.id ≠ id → q ∈ (Ts.updateNotification s id st).2.store) ∧
    { r with state := st } ∈ (Ts.updateNotification s id st).2.store := by
  have hmap : (Ts.updateNotification s id st).2.store =
      s.store.map (fun q => if q.id == id then { q with state := st } else q) := by
    unfold Ts.updateNotification
    split <;> rfl
  refine ⟨hmap, fun q hq hqid => ?_, ?_⟩
  · rw [hmap]
    have : (fun q => if q.id == id then { q with state := st } else q) q = q := by
      simp [hqid]
    exact this ▸ List.mem_map_of_mem _ hq
  · rw [hmap]
    have : (fun q => if q.id == id then { q with state := st } else q) r =
        { r with state := st } := by
      simp [hid]
    exact this ▸ List.mem_map_of_mem _ hr

/-- Witness for C10 at a concrete two-row store: updating row 1 to READ
keeps row 2 unchanged and preserves the other fields of row 1. -/
theorem spec_c10_witness :
    (({ id := 1, userId := "u", message := "a",
        state := NotificationState.UNREAD, createdAt := 1 } : Notification) ∈
      ([{ id := 1, userId := "u", message := "a",
          state := NotificationState.UNREAD, createdAt := 1 },
        { id := 2, userId := "u", message := "b",
          state := NotificationState.UNREAD, createdAt := 2 }] : List Notification)) ∧
    (({ id := 1, userId := "u", message := "a",
        state := NotificationState.UNREAD, createdAt := 1 } : Notification).id = 1) ∧
    ((Ts.updateNotification
        { store := [{ id := 1, userId := "u", message := "a",
                      state := NotificationState.UNREAD, createdAt := 1 },
                    { id := 2, userId := "u", message := "b",
                      state := NotificationState.UNREAD, createdAt := 2 }],
          cache := [], nextId := 3 } 1 NotificationState.READ).2.store =
      ([{ id := 1, userId := "u", message := "a",
          state := NotificationState.UNREAD, createdAt := 1 },
        { id := 2, userId := "u", message := "b",
          state := NotificationState.UNREAD, createdAt := 2 }] :
        List Notification).map
        (fun q => if q.id == 1 then { q with state := NotificationState.READ } else q) ∧
     (∀ q ∈ ([{ id := 1, userId := "u", message := "a",
                state := NotificationState.UNREAD, createdAt := 1 },
              { id := 2, userId := "u", message := "b",
                state := NotificationState.UNREAD, createdAt := 2 }] : List Notification),
        q.id ≠ 1 →
        q ∈ (Ts.updateNotification
          { store := [{ id := 1, userId := "u", message := "a",
                        state := NotificationState.UNREAD, createdAt := 1 },
                      { id := 2, userId := "u", message := "b",
                        state := NotificationState.UNREAD, createdAt := 2 }],
            cache := [], nextId := 3 } 1 NotificationState.READ).2.store) ∧
     { ({ id := 1, userId := "u", message := "a",
          state := NotificationState.UNREAD, createdAt := 1 } : Notification) with
         state := NotificationState.READ } ∈
       (Ts.updateNotification
          { store := [{ id := 1, userId := "u", message := "a",
                        state := NotificationState.UNREAD, createdAt := 1 },
                      { id := 2, userId := "u", message := "b",
                        state := NotificationState.UNREAD, createdAt := 2 }],
            cache := [], nextId := 3 } 1 NotificationState.READ).2.store) :=
  ⟨by decide, rfl,
   spec_c10_update_frame
     { store := [{ id := 1, userId := "u", message := "a",
                   state := NotificationState.UNREAD, createdAt := 1 },
                 { id := 2, userId := "u", message := "b",
                   state := NotificationState.UNREAD, createdAt := 2 }],
       cache := [], nextId := 3 } 1 NotificationState.READ
     { id := 1, userId := "u", message := "a",
       state := NotificationState.UNREAD, createdAt := 1 } (by decide) rfl⟩
